import Mathlib

/-!
Verification of the data-transformation pipeline of the faculty travel
survey dashboard (`src/d1/dashboard.py`).

The pandas/Python operations used by the dashboard are shallowly embedded:
a dataframe is a list of rows (each cell an `Option String`, `none` being
a missing value / NaN), columns are obtained by mapping a projection over
the rows, and the string operations (`str.lower`, `str.strip`,
`str.title`, `str.replace`, `str.split`, `str.contains`, `isin`,
`fillna`, `value_counts`, `crosstab`) are modelled as executable Lean
functions over `String` / `List Char`.  Percentages are rationals;
pandas NaN results of a division are modelled by `Option ℚ` with `none`
standing for NaN.
-/

namespace Gago

/-- Model of Python ASCII lower-casing (`str.lower`): map `Char.toLower`
over the characters. -/
def lowerStr (s : String) : String :=
  ⟨s.data.map Char.toLower⟩

/-- Characters treated as whitespace by Python's `str.strip()` (ASCII
fragment). -/
def isPySpace (c : Char) : Bool :=
  c == ' ' || c == '\t' || c == '\n' || c == '\r' || c == '\x0b' || c == '\x0c'

/-- Strip leading and trailing whitespace from a character list. -/
def stripList (l : List Char) : List Char :=
  ((l.dropWhile isPySpace).reverse.dropWhile isPySpace).reverse

/-- Model of Python `str.strip()`. -/
def pyStrip (s : String) : String :=
  ⟨stripList s.data⟩

/-- Helper for `pyTitle`: `prev` records whether the previous character
was alphabetic. -/
def titleAux : Bool → List Char → List Char
  | _, [] => []
  | prev, c :: cs =>
    (if c.isAlpha then (if prev then c.toLower else c.toUpper) else c)
      :: titleAux c.isAlpha cs

/-- Model of Python `str.title()`: the first letter of every maximal
alphabetic run is upper-cased and the rest of the run lower-cased. -/
def pyTitle (s : String) : String :=
  ⟨titleAux false s.data⟩

/-- `headMatch needle hay` is true when `needle` is an initial segment of
`hay`. -/
def headMatch : List Char → List Char → Bool
  | [], _ => true
  | _ :: _, [] => false
  | a :: as, b :: bs => a == b && headMatch as bs

/-- `subMatch needle hay`: `needle` occurs contiguously inside `hay`. -/
def subMatch (needle : List Char) : List Char → Bool
  | [] => headMatch needle []
  | b :: bs => headMatch needle (b :: bs) || subMatch needle bs

/-- Model of pandas `series.str.contains(pat)` on a single value (the
patterns used by the dashboard contain no regex metacharacters, so this
is substring containment). -/
def containsSub (hay needle : String) : Bool :=
  subMatch needle.data hay.data

/-- Model of Python `str.replace(a, b)` for single-character `a`, `b`. -/
def replaceChar (a b : Char) (s : String) : String :=
  ⟨s.data.map (fun c => if c == a then b else c)⟩

/-- Split a character list on `','`, keeping empty pieces, as Python
`str.split(',')` does. -/
def splitComma : List Char → List (List Char)
  | [] => [[]]
  | c :: cs =>
    if c == ',' then [] :: splitComma cs
    else
      match splitComma cs with
      | [] => [[c]]
      | p :: ps => (c :: p) :: ps

/-- Model of pandas `fillna(sub)` on a single cell. -/
def fillna (sub : String) : Option String → String
  | none => sub
  | some s => s

/-- One survey response row.  Each field is one of the five columns the
dashboard reads; `none` is a missing cell (NaN). -/
structure Row where
  travelMode : Option String
  carpool : Option String
  cabIssue : Option String
  reasonRide : Option String
  reasonCarpool : Option String
deriving DecidableEq, Repr

/-- The loaded response table.  The two boolean flags record whether the
optional free-text reason columns are present in the CSV (`df.get`
returns `None` for an absent column). -/
structure DataFrame where
  rows : List Row
  hasReasonRide : Bool
  hasReasonCarpool : Bool
deriving DecidableEq, Repr

/-- `total_responses = len(df)`. -/
def total_responses (df : DataFrame) : Nat :=
  df.rows.length

/-- `travel_mode_lower = df['Travel Mode'].fillna('').astype(str).str.lower()`. -/
def travel_mode_lower (df : DataFrame) : List String :=
  df.rows.map (fun r => lowerStr (fillna "" r.travelMode))

/-- Elementwise boolean `or` of two masks (pandas `|` on boolean series). -/
def maskOr (a b : List Bool) : List Bool :=
  List.zipWith (fun x y => x || y) a b

/-- `private_mask = travel_mode_lower.str.contains('own car') |
travel_mode_lower.str.contains('personal') |
travel_mode_lower.str.contains('bike')`. -/
def private_mask (df : DataFrame) : List Bool :=
  maskOr
    (maskOr ((travel_mode_lower df).map (fun s => containsSub s "own car"))
      ((travel_mode_lower df).map (fun s => containsSub s "personal")))
    ((travel_mode_lower df).map (fun s => containsSub s "bike"))

/-- `mask.sum()` on a boolean series: the number of `true` entries. -/
def maskSum (m : List Bool) : Nat :=
  (m.filter (fun b => b)).length

/-- The percentage computation the dashboard applies to each mask:
`(mask.sum() / total * 100) if total else 0`. -/
def metric_percentage (m : List Bool) (total : Nat) : ℚ :=
  if total = 0 then 0 else (maskSum m : ℚ) / (total : ℚ) * 100

/-- `pct_private = (private_mask.sum() / total_responses * 100) if
total_responses else 0`. -/
def pct_private (df : DataFrame) : ℚ :=
  metric_percentage (private_mask df) (total_responses df)

/-- `carpool_lower = df['Carpool Willingness'].fillna('').astype(str).str.lower()`. -/
def carpool_lower (df : DataFrame) : List String :=
  df.rows.map (fun r => lowerStr (fillna "" r.carpool))

/-- Model of pandas `series.isin(values)` on a single value. -/
def isin (s : String) (values : List String) : Bool :=
  values.contains s

/-- `open_to_carpool_mask = carpool_lower.isin(['yes', 'maybe'])`. -/
def open_to_carpool_mask (df : DataFrame) : List Bool :=
  (carpool_lower df).map (fun s => isin s ["yes", "maybe"])

/-- `pct_open_carpool`. -/
def pct_open_carpool (df : DataFrame) : ℚ :=
  metric_percentage (open_to_carpool_mask df) (total_responses df)

/-- `cab_issue_lower = df['Cab Availability Issues'].fillna('').astype(str).str.lower()`. -/
def cab_issue_lower (df : DataFrame) : List String :=
  df.rows.map (fun r => lowerStr (fillna "" r.cabIssue))

/-- `cab_issue_mask = cab_issue_lower.isin(['yes', 'sometimes'])`. -/
def cab_issue_mask (df : DataFrame) : List Bool :=
  (cab_issue_lower df).map (fun s => isin s ["yes", "sometimes"])

/-- `pct_cab_issues`. -/
def pct_cab_issues (df : DataFrame) : ℚ :=
  metric_percentage (cab_issue_mask df) (total_responses df)

/-- Display normalization of a cell: `fillna("(Missing)")`. -/
def displayNorm (c : Option String) : String :=
  fillna "(Missing)" c

/-- Model of pandas `series.value_counts()` as an association list from
distinct labels (in first-occurrence order) to their counts.  The
dashboard never relies on the descending-count iteration order, so the
ordering of the pairs is not modelled. -/
def valueCounts (col : List String) : List (String × Nat) :=
  col.dedup.map (fun v => (v, col.count v))

/-- `mode_counts = df['Travel Mode'].fillna("(Missing)").value_counts()`. -/
def mode_counts (df : DataFrame) : List (String × Nat) :=
  valueCounts (df.rows.map (fun r => displayNorm r.travelMode))

/-- `pool_counts = df['Carpool Willingness'].fillna('(Missing)').value_counts()`. -/
def pool_counts (df : DataFrame) : List (String × Nat) :=
  valueCounts (df.rows.map (fun r => displayNorm r.carpool))

/-! ### Cross-tabulation (section 2 of the dashboard)

`df_mode_issue = df[['Travel Mode', 'Cab Availability Issues']].fillna('(Missing)')`
`ct = pd.crosstab(df_mode_issue['Travel Mode'], df_mode_issue['Cab Availability Issues'])`
`ct_pct = ct.div(ct.sum(axis=1), axis=0) * 100`
-/

/-- The display-normalized (travel mode, cab issue) pairs, one per row. -/
def modeIssuePairs (df : DataFrame) : List (String × String) :=
  df.rows.map (fun r => (displayNorm r.travelMode, displayNorm r.cabIssue))

/-- The row index of `ct`: the distinct travel-mode values observed. -/
def ctRowLabels (df : DataFrame) : List String :=
  ((modeIssuePairs df).map Prod.fst).dedup

/-- The column index of `ct`: the distinct cab-issue values observed. -/
def ctColLabels (df : DataFrame) : List String :=
  ((modeIssuePairs df).map Prod.snd).dedup

/-- One entry of the crosstab `ct`: the number of rows with the given
(travel mode, cab issue) pair. -/
def ctEntry (df : DataFrame) (r c : String) : Nat :=
  (modeIssuePairs df).count (r, c)

/-- `ct.sum(axis=1)` at row `r`: the sum of that row of `ct` over the
crosstab's columns. -/
def ctRowSum (df : DataFrame) (r : String) : Nat :=
  ((ctColLabels df).map (fun c => ctEntry df r c)).sum

/-- One entry of `ct_pct = ct.div(ct.sum(axis=1), axis=0) * 100`.
Division of a row by a zero row sum produces NaN in pandas, modelled by
`none`. -/
def ct_pct (df : DataFrame) (r c : String) : Option ℚ :=
  if ctRowSum df r = 0 then none
  else some ((ctEntry df r c : ℚ) / (ctRowSum df r : ℚ) * 100)

/-! ### Reason tokenizer (sections 4 and 5 of the dashboard) -/

/-- The per-cell body of `split_reasons`:
`item = item.replace('/', ',').replace(';', ',')`
`parts = [p.strip() for p in item.split(',') if p.strip()]`. -/
def cellParts (s : String) : List String :=
  ((splitComma (replaceChar ';' ',' (replaceChar '/' ',' s)).data).map
      (fun l => (⟨stripList l⟩ : String))).filter (fun p => p ≠ "")

/-- `split_reasons(texts)`: iterate over `texts.dropna().astype(str)` and
extend the accumulator with each cell's parts. -/
def split_reasons : List (Option String) → List String
  | [] => []
  | none :: rest => split_reasons rest
  | some s :: rest => cellParts s ++ split_reasons rest

/-- `reasons_series = df.get('Reason for not using Ola/Uber/Rapido frequently')`:
`none` when the column is absent from the CSV. -/
def reasons_series (df : DataFrame) : Option (List (Option String)) :=
  if df.hasReasonRide then some (df.rows.map (fun r => r.reasonRide)) else none

/-- `reasons_list = split_reasons(reasons_series) if reasons_series is not None else []`. -/
def reasons_list (df : DataFrame) : List String :=
  match reasons_series df with
  | some col => split_reasons col
  | none => []

/-- `reasons_df = pd.Series([r.title() for r in reasons_list]).value_counts()`
(as a label → count table; the `reset_index`/column renaming is display
only). -/
def reasons_df (df : DataFrame) : List (String × Nat) :=
  valueCounts ((reasons_list df).map pyTitle)

/-- `reasons_carpool_series = df.get('Reason for not preferring carpooling')`. -/
def reasons_carpool_series (df : DataFrame) : Option (List (Option String)) :=
  if df.hasReasonCarpool then some (df.rows.map (fun r => r.reasonCarpool)) else none

/-- `reasons_carpool_list`. -/
def reasons_carpool_list (df : DataFrame) : List String :=
  match reasons_carpool_series df with
  | some col => split_reasons col
  | none => []

/-- `reasons_carpool_df` as a label → count table. -/
def reasons_carpool_df (df : DataFrame) : List (String × Nat) :=
  valueCounts ((reasons_carpool_list df).map pyTitle)

/-! ### Spec-side definitions

For the refinement claims, a second definition following the spec's own
words, to be compared with the one embedded from the source. -/

/-- Spec wording of the private-vehicle rule: one pass over the rows,
true when the match-normalized travel-mode value contains any of
"own car", "personal", "bike". -/
def privateMaskSpec (df : DataFrame) : List Bool :=
  df.rows.map (fun r =>
    let s := lowerStr (fillna "" r.travelMode)
    containsSub s "own car" || containsSub s "personal" || containsSub s "bike")

/-- Spec wording of the reason tokenizer: for each non-missing cell,
replace `/` and `;` with `,`, split on `,`, trim, discard empty pieces,
title-case each surviving piece, and append in row order. -/
def tokenizeReasonsSpec : List (Option String) → List String
  | [] => []
  | none :: rest => tokenizeReasonsSpec rest
  | some s :: rest => (cellParts s).map pyTitle ++ tokenizeReasonsSpec rest

/-! ### Concrete example data used by the spec's worked examples -/

/-- A row with only the three categorical cells populated. -/
def exampleRow (tm cp ci : Option String) : Row :=
  ⟨tm, cp, ci, none, none⟩

/-- The travel-mode example table `["Own Car","Ola/Uber","Bike"]`. -/
def dfTravel : DataFrame :=
  ⟨[exampleRow (some "Own Car") none none,
    exampleRow (some "Ola/Uber") none none,
    exampleRow (some "Bike") none none], false, false⟩

/-- The carpool-willingness example table `["Yes","No","Maybe","yes"]`. -/
def dfCarpool : DataFrame :=
  ⟨[exampleRow none (some "Yes") none,
    exampleRow none (some "No") none,
    exampleRow none (some "Maybe") none,
    exampleRow none (some "yes") none], false, false⟩

/-- A one-row table whose carpool cell is `"Yes "` (trailing blank). -/
def dfWhitespace : DataFrame :=
  ⟨[exampleRow none (some "Yes ") none], false, false⟩

/-- A one-row table whose three categorical cells are all missing. -/
def dfMissing : DataFrame :=
  ⟨[exampleRow none none none], false, false⟩

/-- The zero-row table. -/
def dfEmpty : DataFrame :=
  ⟨[], false, false⟩

/-! ### Helper lemmas -/

theorem zipWith_map_same {α β γ : Type} (f : β → β → γ) (g h : α → β)
    (l : List α) :
    List.zipWith f (l.map g) (l.map h) = l.map (fun x => f (g x) (h x)) := by
  induction l with
  | nil => rfl
  | cons a t ih => simp [ih]

/-- The three or-ed substring masks collapse to a single per-row rule. -/
theorem private_mask_eq (df : DataFrame) :
    private_mask df = privateMaskSpec df := by
  unfold private_mask privateMaskSpec maskOr travel_mode_lower
  rw [zipWith_map_same, zipWith_map_same, List.map_map]
  rfl

/-- The open-to-carpool mask as a single map over the rows. -/
theorem open_mask_eq (df : DataFrame) :
    open_to_carpool_mask df =
      df.rows.map (fun r => isin (lowerStr (fillna "" r.carpool)) ["yes", "maybe"]) := by
  unfold open_to_carpool_mask carpool_lower
  rw [List.map_map]
  rfl

/-- The cab-issue mask as a single map over the rows. -/
theorem cab_mask_eq (df : DataFrame) :
    cab_issue_mask df =
      df.rows.map (fun r => isin (lowerStr (fillna "" r.cabIssue)) ["yes", "sometimes"]) := by
  unfold cab_issue_mask cab_issue_lower
  rw [List.map_map]
  rfl

theorem maskSum_le_length (m : List Bool) : maskSum m ≤ m.length :=
  List.length_filter_le _ m

/-! ### Claims -/

/-- C1: the private-vehicle mask is true at a row exactly when the
lower-cased, missing-replaced-by-empty-string travel-mode value contains
one of "own car", "personal", "bike"; on `["Own Car","Ola/Uber","Bike"]`
the mask is `[true, false, true]` and `pct_private` is `200/3`. -/
theorem private_mask_spec_and_example :
    (∀ df : DataFrame, private_mask df = privateMaskSpec df) ∧
    private_mask dfTravel = [true, false, true] ∧
    pct_private dfTravel = 200 / 3 := by
  refine ⟨private_mask_eq, by decide, ?_⟩
  show metric_percentage (private_mask dfTravel) (total_responses dfTravel) = 200 / 3
  norm_num [show private_mask dfTravel = [true, false, true] from by decide,
    show total_responses dfTravel = 3 from rfl, metric_percentage, maskSum]

/-- C4: `metric_percentage` of a mask aligned with the table lies in
[0, 100]; it is 0 when the total is 0; a zero-row table yields
`total_responses = 0` and all three headline percentages 0. -/
theorem metric_percentage_bounds (m : List Bool) (total : Nat)
    (h : m.length = total) :
    (0 ≤ metric_percentage m total ∧ metric_percentage m total ≤ 100) ∧
    (total = 0 → metric_percentage m total = 0) ∧
    (∀ df : DataFrame, df.rows = [] →
      total_responses df = 0 ∧ pct_private df = 0 ∧
      pct_open_carpool df = 0 ∧ pct_cab_issues df = 0) := by
  refine ⟨?_, ?_, ?_⟩
  · unfold metric_percentage
    rcases Nat.eq_zero_or_pos total with h0 | hpos
    · simp [h0]
    · rw [if_neg (Nat.pos_iff_ne_zero.mp hpos)]
      have hle : (maskSum m : ℚ) ≤ (total : ℚ) := by
        exact_mod_cast h ▸ maskSum_le_length m
      have htpos : (0 : ℚ) < (total : ℚ) := by exact_mod_cast hpos
      constructor
      · positivity
      · calc (maskSum m : ℚ) / (total : ℚ) * 100
            ≤ 1 * 100 := by
              apply mul_le_mul_of_nonneg_right _ (by norm_num)
              exact (div_le_one htpos).mpr hle
          _ = 100 := by norm_num
  · intro h0
    simp [metric_percentage, h0]
  · intro df hdf
    have ht : total_responses df = 0 := by simp [total_responses, hdf]
    exact ⟨ht, by simp [pct_private, ht, metric_percentage],
      by simp [pct_open_carpool, ht, metric_percentage],
      by simp [pct_cab_issues, ht, metric_percentage]⟩

/-- Witness for C4 at the mask `[true]` with total 1 and at the zero-row
table. -/
theorem metric_percentage_bounds_witness :
    (0 ≤ metric_percentage [true] 1 ∧ metric_percentage [true] 1 ≤ 100) ∧
    (total_responses dfEmpty = 0 ∧ pct_private dfEmpty = 0 ∧
      pct_open_carpool dfEmpty = 0 ∧ pct_cab_issues dfEmpty = 0) :=
  ⟨(metric_percentage_bounds [true] 1 rfl).1,
    (metric_percentage_bounds [true] 1 rfl).2.2 dfEmpty rfl⟩

/-- C10: a row whose travel-mode, carpool-willingness or cab-availability
cell is missing is classified false by the corresponding mask, yet still
counts in `total_responses`. -/
theorem missing_cells_classified_false (df : DataFrame) (i : Nat)
    (hi : i < df.rows.length) :
    ((df.rows.get ⟨i, hi⟩).travelMode = none →
      (private_mask df)[i]? = some false) ∧
    ((df.rows.get ⟨i, hi⟩).carpool = none →
      (open_to_carpool_mask df)[i]? = some false) ∧
    ((df.rows.get ⟨i, hi⟩).cabIssue = none →
      (cab_issue_mask df)[i]? = some false) ∧
    total_responses df = df.rows.length := by
  have hget : df.rows[i]? = some (df.rows.get ⟨i, hi⟩) :=
    List.getElem?_eq_getElem hi
  refine ⟨?_, ?_, ?_, rfl⟩
  · intro hnone
    rw [private_mask_eq]
    unfold privateMaskSpec
    rw [List.getElem?_map, hget]
    simp only [Option.map_some', hnone]
    rfl
  · intro hnone
    rw [open_mask_eq, List.getElem?_map, hget]
    simp only [Option.map_some', hnone]
    rfl
  · intro hnone
    rw [cab_mask_eq, List.getElem?_map, hget]
    simp only [Option.map_some', hnone]
    rfl

/-- Witness for C10 at the one-row all-missing table. -/
theorem missing_cells_classified_false_witness :
    ((dfMissing.rows.get ⟨0, by decide⟩).travelMode = none →
      (private_mask dfMissing)[0]? = some false) ∧
    ((dfMissing.rows.get ⟨0, by decide⟩).carpool = none →
      (open_to_carpool_mask dfMissing)[0]? = some false) ∧
    ((dfMissing.rows.get ⟨0, by decide⟩).cabIssue = none →
      (cab_issue_mask dfMissing)[0]? = some false) ∧
    total_responses dfMissing = dfMissing.rows.length :=
  missing_cells_classified_false dfMissing 0 (by decide)

/-- C3 (counterexample): the raw cell `"Yes "` differs from `"yes"` only
by case and surrounding whitespace — its trimmed, lower-cased form is
exactly `"yes"` — yet the dashboard classifies it false, because the
code lower-cases but never trims before the `isin` test. -/
theorem open_mask_whitespace_counterexample :
    pyStrip (lowerStr (fillna "" (some "Yes "))) = "yes" ∧
    (open_to_carpool_mask dfWhitespace)[0]? = some false := by
  constructor <;> decide

/-- C3 (amended): the open-to-carpool mask is true at a row exactly when
the lower-cased, missing-replaced-by-empty-string carpool value — with
NO whitespace trimming — is exactly "yes" or "maybe"; letter case is
tolerated but surrounding whitespace is not. -/
theorem open_mask_exact_membership (df : DataFrame) (i : Nat)
    (hi : i < df.rows.length) :
    (open_to_carpool_mask df)[i]? = some true ↔
      (lowerStr (fillna "" (df.rows.get ⟨i, hi⟩).carpool) = "yes" ∨
       lowerStr (fillna "" (df.rows.get ⟨i, hi⟩).carpool) = "maybe") := by
  have hget : df.rows[i]? = some (df.rows.get ⟨i, hi⟩) :=
    List.getElem?_eq_getElem hi
  rw [open_mask_eq, List.getElem?_map, hget]
  simp only [Option.map_some', Option.some.injEq]
  simp [isin]

/-- Witness for C3's amended theorem: the lower-cased cell "MAYBE" is
classified true. -/
theorem open_mask_exact_membership_witness :
    (open_to_carpool_mask ⟨[exampleRow none (some "MAYBE") none], false, false⟩)[0]? =
      some true :=
  (open_mask_exact_membership ⟨[exampleRow none (some "MAYBE") none], false, false⟩
    0 (by decide)).mpr (by right; decide)

/-- C2 (counterexample): `value_counts` is applied to the raw
(display-normalized) values, with no case folding, so on
`["Yes","No","Maybe","yes"]` the bucket "Yes" has count 1, not 2, and
"yes" forms its own bucket. -/
theorem pool_counts_case_sensitive_counterexample :
    ("Yes", 2) ∉ pool_counts dfCarpool ∧
    ("Yes", 1) ∈ pool_counts dfCarpool ∧
    ("yes", 1) ∈ pool_counts dfCarpool := by
  refine ⟨?_, ?_, ?_⟩ <;> decide

/-- C2 (amended): the carpool-willingness frequency table groups values
case-sensitively — `["Yes","No","Maybe","yes"]` yields the four buckets
{Yes:1, No:1, Maybe:1, yes:1} — while the open-to-carpool percentage,
computed from the lower-cased values, is 75 on that input. -/
theorem pool_counts_case_sensitive :
    pool_counts dfCarpool =
      [("Yes", 1), ("No", 1), ("Maybe", 1), ("yes", 1)] ∧
    pct_open_carpool dfCarpool = 75 := by
  constructor
  · decide
  · show metric_percentage (open_to_carpool_mask dfCarpool)
      (total_responses dfCarpool) = 75
    norm_num [show open_to_carpool_mask dfCarpool = [true, false, true, true]
        from by decide,
      show total_responses dfCarpool = 4 from rfl, metric_percentage, maskSum]

/-- Sum of the counts of a `value_counts` table is the number of cells. -/
theorem valueCounts_sum (col : List String) :
    ((valueCounts col).map Prod.snd).sum = col.length := by
  unfold valueCounts
  rw [List.map_map]
  exact List.sum_map_count_dedup_eq_length col

/-- C8: the display-normalized frequency tables (travel mode, carpool
willingness) count every row exactly once — their counts sum to the
number of rows — and a missing cell lands in the "(Missing)" bucket. -/
theorem value_counts_total (df : DataFrame) :
    ((mode_counts df).map Prod.snd).sum = total_responses df ∧
    ((pool_counts df).map Prod.snd).sum = total_responses df ∧
    displayNorm none = "(Missing)" := by
  refine ⟨?_, ?_, rfl⟩ <;>
    simp [mode_counts, pool_counts, valueCounts_sum, total_responses]

/-- C7: when an optional free-text reason column is absent from the CSV,
the tokenizer and its count table are empty, with no error raised. -/
theorem absent_reason_column_empty (df : DataFrame) :
    (df.hasReasonRide = false →
      reasons_list df = [] ∧ reasons_df df = []) ∧
    (df.hasReasonCarpool = false →
      reasons_carpool_list df = [] ∧ reasons_carpool_df df = []) := by
  constructor
  · intro h
    have hl : reasons_list df = [] := by
      simp [reasons_list, reasons_series, h]
    exact ⟨hl, by simp [reasons_df, hl, valueCounts]⟩
  · intro h
    have hl : reasons_carpool_list df = [] := by
      simp [reasons_carpool_list, reasons_carpool_series, h]
    exact ⟨hl, by simp [reasons_carpool_df, hl, valueCounts]⟩

/-- Witness for C7 at a table carrying neither optional column. -/
theorem absent_reason_column_empty_witness :
    (reasons_list dfTravel = [] ∧ reasons_df dfTravel = []) ∧
    (reasons_carpool_list dfTravel = [] ∧ reasons_carpool_df dfTravel = []) :=
  ⟨(absent_reason_column_empty dfTravel).1 rfl,
    (absent_reason_column_empty dfTravel).2 rfl⟩

/-- C6: the reason pipeline (cell-wise replace `/`, `;` by `,`, split on
`,`, trim, drop empties, then title-case at the counting step) agrees
with the spec's single-pass description — title-casing each surviving
piece per cell, emitting in row order then within-row order — and the
cell `"High Cost/Safety Concerns; Inconvenient"` yields exactly
`["High Cost", "Safety Concerns", "Inconvenient"]`. -/
theorem tokenize_reasons_spec_and_example :
    (∀ col : List (Option String),
      (split_reasons col).map pyTitle = tokenizeReasonsSpec col) ∧
    (split_reasons [some "High Cost/Safety Concerns; Inconvenient"]).map pyTitle =
      ["High Cost", "Safety Concerns", "Inconvenient"] := by
  constructor
  · intro col
    induction col with
    | nil => rfl
    | cons c rest ih =>
      cases c with
      | none => simpa [split_reasons, tokenizeReasonsSpec] using ih
      | some s => simp [split_reasons, tokenizeReasonsSpec, ih]
  · decide

/-- A character-wise replacement that touches no character of `s` leaves
`s` unchanged. -/
theorem replaceChar_eq_self (a b : Char) (s : String)
    (h : ∀ c ∈ s.data, ¬ c = a) : replaceChar a b s = s := by
  obtain ⟨l⟩ := s
  unfold replaceChar
  congr 1
  calc l.map (fun c => if c == a then b else c)
      = l.map id := List.map_congr_left (fun c hc => by
        simp only [beq_iff_eq, if_neg (h c hc), id])
    _ = l := List.map_id l

/-- Splitting a comma-free character list yields the single piece. -/
theorem splitComma_no_comma (l : List Char) (h : ∀ c ∈ l, ¬ c = ',') :
    splitComma l = [l] := by
  induction l with
  | nil => rfl
  | cons c cs ih =>
    unfold splitComma
    rw [if_neg (by simpa using h c (List.mem_cons_self c cs))]
    rw [ih (fun x hx => h x (List.mem_cons_of_mem c hx))]

/-- C9: tokenizing is the identity on an already-clean cell: a single
nonempty token with no comma, slash or semicolon, already trimmed and
already title-cased, comes back unchanged as the only token. -/
theorem tokenize_reasons_idempotent (s : String) (hne : s ≠ "")
    (hdelim : ∀ c ∈ s.data, ¬ c = ',' ∧ ¬ c = '/' ∧ ¬ c = ';')
    (htrim : pyStrip s = s) (htitle : pyTitle s = s) :
    (split_reasons [some s]).map pyTitle = [s] := by
  have hcell : cellParts s = [s] := by
    unfold cellParts
    rw [replaceChar_eq_self '/' ',' s (fun c hc => (hdelim c hc).2.1)]
    rw [replaceChar_eq_self ';' ',' s (fun c hc => (hdelim c hc).2.2)]
    rw [splitComma_no_comma s.data (fun c hc => (hdelim c hc).1)]
    have hs : (⟨stripList s.data⟩ : String) = s := htrim
    simp [hs, hne]
  simp [split_reasons, hcell, htitle]

/-- Witness for C9 at the clean token "High Cost". -/
theorem tokenize_reasons_idempotent_witness :
    (split_reasons [some "High Cost"]).map pyTitle = ["High Cost"] :=
  tokenize_reasons_idempotent "High Cost" (by decide) (by decide)
    (by decide) (by decide)

/-- A travel-mode value that never occurs has a zero crosstab row sum. -/
theorem ctRowSum_eq_zero_of_not_mem (df : DataFrame) (x : String)
    (hx : x ∉ ctRowLabels df) : ctRowSum df x = 0 := by
  unfold ctRowSum
  rw [List.sum_eq_zero_iff]
  intro n hn
  obtain ⟨c, _, hc⟩ := List.mem_map.mp hn
  subst hc
  rw [ctEntry, List.count_eq_zero]
  intro hmem
  exact hx (by
    unfold ctRowLabels
    exact List.mem_dedup.mpr (List.mem_map.mpr ⟨(x, c), hmem, rfl⟩))

/-- A travel-mode value in the crosstab index has a positive row sum. -/
theorem ctRowSum_pos_of_mem (df : DataFrame) (r : String)
    (hr : r ∈ ctRowLabels df) : 0 < ctRowSum df r := by
  obtain ⟨p, hp, hfst⟩ := List.mem_map.mp (List.mem_dedup.mp hr)
  have hpair : (r, p.2) ∈ modeIssuePairs df := by
    have : p = (r, p.2) := by
      cases p
      simp_all
    exact this ▸ hp
  have hcol : p.2 ∈ ctColLabels df :=
    List.mem_dedup.mpr (List.mem_map.mpr ⟨p, hp, rfl⟩)
  have hentry : 0 < ctEntry df r p.2 :=
    List.count_pos_iff.mpr hpair
  have hmemsum : ctEntry df r p.2 ∈
      (ctColLabels df).map (fun c => ctEntry df r c) :=
    List.mem_map.mpr ⟨p.2, hcol, rfl⟩
  exact Nat.lt_of_lt_of_le hentry (List.le_sum_of_mem hmemsum)

/-- C5: in `ct_pct`, every travel-mode value present in the data has a
positive row sum, each of its entries is a well-defined rational (no
NaN), and the row's percentages sum to exactly 100; a travel-mode value
with zero observations is not a row of the crosstab at all, so no NaN
row is ever produced. -/
theorem crosstab_row_normalized (df : DataFrame) (r : String)
    (hr : r ∈ ctRowLabels df) :
    0 < ctRowSum df r ∧
    (∀ c, ct_pct df r c =
      some ((ctEntry df r c : ℚ) / (ctRowSum df r : ℚ) * 100)) ∧
    ((ctColLabels df).map (fun c =>
      (ctEntry df r c : ℚ) / (ctRowSum df r : ℚ) * 100)).sum = 100 ∧
    (∀ x : String, x ∉ ctRowLabels df → ctRowSum df x = 0) := by
  have hpos : 0 < ctRowSum df r := ctRowSum_pos_of_mem df r hr
  have hSne : (ctRowSum df r : ℚ) ≠ 0 := by
    exact_mod_cast Nat.pos_iff_ne_zero.mp hpos
  refine ⟨hpos, ?_, ?_, ctRowSum_eq_zero_of_not_mem df⟩
  · intro c
    unfold ct_pct
    rw [if_neg (Nat.pos_iff_ne_zero.mp hpos)]
  · calc ((ctColLabels df).map (fun c =>
          (ctEntry df r c : ℚ) / (ctRowSum df r : ℚ) * 100)).sum
        = ((ctColLabels df).map (fun c =>
            (ctEntry df r c : ℚ) * (100 / (ctRowSum df r : ℚ)))).sum := by
          apply congrArg
          exact List.map_congr_left (fun c _ => by ring)
      _ = ((ctColLabels df).map (fun c => (ctEntry df r c : ℚ))).sum *
            (100 / (ctRowSum df r : ℚ)) := List.sum_map_mul_right _ _ _
      _ = (ctRowSum df r : ℚ) * (100 / (ctRowSum df r : ℚ)) := by
          rw [ctRowSum, Nat.cast_list_sum, List.map_map]
          rfl
      _ = 100 := by field_simp

/-- Witness for C5 at the travel-mode example table (row "Own Car"). -/
theorem crosstab_row_normalized_witness :
    0 < ctRowSum dfTravel "Own Car" ∧
    (∀ c, ct_pct dfTravel "Own Car" c =
      some ((ctEntry dfTravel "Own Car" c : ℚ) /
        (ctRowSum dfTravel "Own Car" : ℚ) * 100)) ∧
    ((ctColLabels dfTravel).map (fun c =>
      (ctEntry dfTravel "Own Car" c : ℚ) /
        (ctRowSum dfTravel "Own Car" : ℚ) * 100)).sum = 100 ∧
    (∀ x : String, x ∉ ctRowLabels dfTravel → ctRowSum dfTravel x = 0) :=
  crosstab_row_normalized dfTravel "Own Car" (by decide)

end Gago
